import Mathlib

/-!
Verification of the hydrological sizing engine of the drainage backend
(`src/app.py`).  The Python functions are shallowly embedded over `ℝ`:
each definition below mirrors one assignment or function of the source.
External effects (Earth-Engine queries, HTTP fetches, exceptions) are
modelled by explicit environment records whose fields record the outcome
of each external call.
-/

namespace Drenaj

open Real

/-- Runoff coefficient, from `C = 0.85 if land_cls == 50 else 0.40`
(app.py line 106). -/
noncomputable def runoff_C (land_cls : ℤ) : ℝ :=
  if land_cls = 50 then 0.85 else 0.40

/-- Catchment area in hectares, from `area_ha = (math.pi * radius**2) / 10000`
(app.py line 107). -/
noncomputable def area_ha (radius : ℝ) : ℝ :=
  (π * radius ^ 2) / 10000

/-- Fixed design rainfall intensity, from `i_intensity = 65` (app.py line 110). -/
noncomputable def i_intensity : ℝ := 65

/-- Rational-method peak flow, from
`Q_flow = (C * i_intensity * area_ha) / 360` (app.py line 111). -/
noncomputable def Q_flow (land_cls : ℤ) (radius : ℝ) : ℝ :=
  (runoff_C land_cls * i_intensity * area_ha radius) / 360

/-- Slope percentage, from `slope_pct = math.tan(math.radians(slope_deg)) * 100`
(app.py line 98); `math.radians(d) = d * π / 180`. -/
noncomputable def slope_pct (slope_deg : ℝ) : ℝ :=
  Real.tan (slope_deg * π / 180) * 100

/-- Manning roughness coefficient, from `n = 0.013` (app.py line 116). -/
noncomputable def n_manning : ℝ := 0.013

/-- Hydraulic slope with its floor, from
`S_metric = max(0.005, slope_pct / 100)` (app.py line 117). -/
noncomputable def S_metric (p : ℝ) : ℝ :=
  max 0.005 (p / 100)

/-- Uncorrected Manning diameter in mm, from
`D_mm = (((4 ** (5/3)) * n * Q_flow) / (math.pi * math.sqrt(S_metric))) ** (3/8) * 1000`
(app.py line 118).  Real powers are `Real.rpow`. -/
noncomputable def D_mm (Q p : ℝ) : ℝ :=
  (((4 : ℝ) ^ ((5 : ℝ) / 3) * n_manning * Q) / (π * Real.sqrt (S_metric p)))
    ^ ((3 : ℝ) / 8) * 1000

/-- Diameter after the friction-length correction, from
`total_len = radius + dist_to_water` and
`if total_len > 1000: D_mm *= 1.10` (app.py lines 115, 121-122). -/
noncomputable def D_final (radius dist_to_water Q p : ℝ) : ℝ :=
  if radius + dist_to_water > 1000 then D_mm Q p * 1.10 else D_mm Q p

/-- C1: runoff coefficient selection and rational-method peak flow:
`C = 0.85` when `land_cls = 50` and `0.40` otherwise,
`area_ha = π r² / 10000`, `Q = (C · 65 · area_ha) / 360`, and for every
positive radius the peak flow is nonnegative. -/
theorem C1_runoff_and_peak_flow (land_cls : ℤ) (radius : ℝ) :
    runoff_C land_cls = (if land_cls = 50 then 0.85 else 0.40) ∧
    area_ha radius = (π * radius ^ 2) / 10000 ∧
    Q_flow land_cls radius = (runoff_C land_cls * 65 * area_ha radius) / 360 ∧
    (0 < radius → 0 ≤ Q_flow land_cls radius) := by
  refine ⟨rfl, rfl, rfl, fun _ => ?_⟩
  have hC : 0 ≤ runoff_C land_cls := by
    unfold runoff_C
    split <;> norm_num
  have hA : 0 ≤ area_ha radius := by
    unfold area_ha
    positivity
  unfold Q_flow i_intensity
  positivity

/-- Witness for C1 at `land_cls = 50`, `radius = 1`. -/
theorem C1_runoff_and_peak_flow_witness :
    (0 : ℝ) < 1 ∧ 0 ≤ Q_flow 50 1 := by
  refine ⟨by norm_num, (C1_runoff_and_peak_flow 50 1).2.2.2 (by norm_num)⟩

lemma S_metric_pos (p : ℝ) : 0 < S_metric p :=
  lt_of_lt_of_le (by norm_num) (le_max_left _ _)

lemma sqrt_S_metric_pos (p : ℝ) : 0 < Real.sqrt (S_metric p) :=
  Real.sqrt_pos.mpr (S_metric_pos p)

lemma D_mm_denom_pos (p : ℝ) : 0 < π * Real.sqrt (S_metric p) :=
  mul_pos pi_pos (sqrt_S_metric_pos p)

lemma D_mm_nonneg {Q : ℝ} (hQ : 0 ≤ Q) (p : ℝ) : 0 ≤ D_mm Q p := by
  unfold D_mm
  have hnum : 0 ≤ (4 : ℝ) ^ ((5 : ℝ) / 3) * n_manning * Q := by
    have h4 : (0 : ℝ) ≤ (4 : ℝ) ^ ((5 : ℝ) / 3) := Real.rpow_nonneg (by norm_num) _
    have hn : (0 : ℝ) ≤ n_manning := by unfold n_manning; norm_num
    exact mul_nonneg (mul_nonneg h4 hn) hQ
  have hbase : 0 ≤ ((4 : ℝ) ^ ((5 : ℝ) / 3) * n_manning * Q) /
      (π * Real.sqrt (S_metric p)) := div_nonneg hnum (D_mm_denom_pos p).le
  exact mul_nonneg (Real.rpow_nonneg hbase _) (by norm_num)

lemma D_mm_pos {Q : ℝ} (hQ : 0 < Q) (p : ℝ) : 0 < D_mm Q p := by
  unfold D_mm
  have hnum : 0 < (4 : ℝ) ^ ((5 : ℝ) / 3) * n_manning * Q := by
    have h4 : (0 : ℝ) < (4 : ℝ) ^ ((5 : ℝ) / 3) := Real.rpow_pos_of_pos (by norm_num) _
    have hn : (0 : ℝ) < n_manning := by unfold n_manning; norm_num
    exact mul_pos (mul_pos h4 hn) hQ
  exact mul_pos (Real.rpow_pos_of_pos (div_pos hnum (D_mm_denom_pos p)) _) (by norm_num)

lemma Q_flow_pos (land_cls : ℤ) {radius : ℝ} (hr : 0 < radius) :
    0 < Q_flow land_cls radius := by
  have hC : 0 < runoff_C land_cls := by
    unfold runoff_C
    split <;> norm_num
  have hA : 0 < area_ha radius := by
    unfold area_ha
    positivity
  unfold Q_flow i_intensity
  positivity

/-- C2: the uncorrected pipe diameter is
`D_mm = ((4^(5/3) · n · Q) / (π · sqrt S))^(3/8) · 1000` with `n = 0.013`,
`S = max(0.005, slope_pct / 100)` and `slope_pct = tan(slope_deg · π/180) · 100`,
and the diameter is nonnegative whenever `Q` is. -/
theorem C2_manning_diameter (slope_deg Q : ℝ) :
    D_mm Q (slope_pct slope_deg) =
      (((4 : ℝ) ^ ((5 : ℝ) / 3) * 0.013 * Q) /
        (π * Real.sqrt (max 0.005 (slope_pct slope_deg / 100)))) ^ ((3 : ℝ) / 8) * 1000 ∧
    slope_pct slope_deg = Real.tan (slope_deg * π / 180) * 100 ∧
    (0 ≤ Q → 0 ≤ D_mm Q (slope_pct slope_deg)) := by
  exact ⟨rfl, rfl, fun hQ => D_mm_nonneg hQ _⟩

/-- Witness for C2 at `slope_deg = 0`, `Q = 0`. -/
theorem C2_manning_diameter_witness :
    (0 : ℝ) ≤ 0 ∧ 0 ≤ D_mm 0 (slope_pct 0) :=
  ⟨le_refl 0, (C2_manning_diameter 0 0).2.2 (le_refl 0)⟩

/-- C3: for a positive catchment radius, the final diameter equals
`1.10 ×` the uncorrected Manning diameter exactly when
`radius + dist_to_water > 1000` (strict), and equals the uncorrected
diameter otherwise. -/
theorem C3_friction_correction (land_cls : ℤ) (radius dist p : ℝ)
    (hr : 0 < radius) :
    (D_final radius dist (Q_flow land_cls radius) p =
        1.10 * D_mm (Q_flow land_cls radius) p ↔ radius + dist > 1000) ∧
    (¬ radius + dist > 1000 →
      D_final radius dist (Q_flow land_cls radius) p =
        D_mm (Q_flow land_cls radius) p) := by
  have hD : 0 < D_mm (Q_flow land_cls radius) p :=
    D_mm_pos (Q_flow_pos land_cls hr) p
  refine ⟨⟨fun h => ?_, fun h => ?_⟩, fun h => ?_⟩
  · by_contra hgt
    unfold D_final at h
    rw [if_neg hgt] at h
    nlinarith
  · unfold D_final
    rw [if_pos h]
    ring
  · unfold D_final
    rw [if_neg h]

/-- Witness for C3 at `radius = 600`, `dist = 600` (total 1200 > 1000). -/
theorem C3_friction_correction_witness :
    D_final 600 600 (Q_flow 50 600) 0 = 1.10 * D_mm (Q_flow 50 600) 0 :=
  ((C3_friction_correction 50 600 600 0 (by norm_num)).1).mpr (by norm_num)

/-- C8: for fixed slope percentage (hence fixed `S`) and fixed roughness,
the Manning diameter is monotonically non-decreasing in the peak flow. -/
theorem C8_diameter_monotone_in_flow (p Q₁ Q₂ : ℝ)
    (h0 : 0 ≤ Q₁) (h12 : Q₁ ≤ Q₂) : D_mm Q₁ p ≤ D_mm Q₂ p := by
  unfold D_mm
  have hA : (0 : ℝ) ≤ (4 : ℝ) ^ ((5 : ℝ) / 3) * n_manning := by
    have h4 : (0 : ℝ) ≤ (4 : ℝ) ^ ((5 : ℝ) / 3) := Real.rpow_nonneg (by norm_num) _
    have hn : (0 : ℝ) ≤ n_manning := by unfold n_manning; norm_num
    exact mul_nonneg h4 hn
  have hden : 0 < π * Real.sqrt (S_metric p) := D_mm_denom_pos p
  have hnum : (4 : ℝ) ^ ((5 : ℝ) / 3) * n_manning * Q₁ ≤
      (4 : ℝ) ^ ((5 : ℝ) / 3) * n_manning * Q₂ :=
    mul_le_mul_of_nonneg_left h12 hA
  have hbase0 : 0 ≤ ((4 : ℝ) ^ ((5 : ℝ) / 3) * n_manning * Q₁) /
      (π * Real.sqrt (S_metric p)) :=
    div_nonneg (mul_nonneg hA h0) hden.le
  have hbase : ((4 : ℝ) ^ ((5 : ℝ) / 3) * n_manning * Q₁) /
      (π * Real.sqrt (S_metric p)) ≤
      ((4 : ℝ) ^ ((5 : ℝ) / 3) * n_manning * Q₂) /
      (π * Real.sqrt (S_metric p)) :=
    div_le_div_of_nonneg_right hnum hden.le
  exact mul_le_mul_of_nonneg_right
    (Real.rpow_le_rpow hbase0 hbase (by norm_num)) (by norm_num)

/-- Witness for C8 at `p = 0`, `Q₁ = 1`, `Q₂ = 2`. -/
theorem C8_diameter_monotone_in_flow_witness :
    (0 : ℝ) ≤ 1 ∧ (1 : ℝ) ≤ 2 ∧ D_mm 1 0 ≤ D_mm 2 0 :=
  ⟨by norm_num, by norm_num,
    C8_diameter_monotone_in_flow 0 1 2 (by norm_num) (by norm_num)⟩

/-- Drainage-pattern selection, from the if/elif chain
`selected_system = "dendritic"; if slope_pct > 12: ... "meandering";
elif land_cls == 50: ... "reticular"; elif slope_pct < 2: ... "pinnate"`
(app.py lines 125-128). -/
noncomputable def selected_system (p : ℝ) (land_cls : ℤ) : String :=
  if p > 12 then "meandering"
  else if land_cls = 50 then "reticular"
  else if p < 2 then "pinnate"
  else "dendritic"

/-- C4: pattern classification is a total function of
`(slope_pct, land_cls)` into the four pattern names, evaluated
first-match-wins in the order meandering, reticular, pinnate, dendritic. -/
theorem C4_pattern_classification (p : ℝ) (land_cls : ℤ) :
    (selected_system p land_cls = "meandering" ∨
     selected_system p land_cls = "reticular" ∨
     selected_system p land_cls = "pinnate" ∨
     selected_system p land_cls = "dendritic") ∧
    (p > 12 → selected_system p land_cls = "meandering") ∧
    (¬ p > 12 → land_cls = 50 → selected_system p land_cls = "reticular") ∧
    (¬ p > 12 → land_cls ≠ 50 → p < 2 →
      selected_system p land_cls = "pinnate") ∧
    (¬ p > 12 → land_cls ≠ 50 → ¬ p < 2 →
      selected_system p land_cls = "dendritic") := by
  unfold selected_system
  by_cases h1 : p > 12 <;> by_cases h2 : land_cls = 50 <;>
    by_cases h3 : p < 2 <;> simp [h1, h2, h3]

/-- Witness for C4 at `p = 3`, `land_cls = 50` (reticular branch). -/
theorem C4_pattern_classification_witness :
    selected_system 3 50 = "reticular" :=
  (C4_pattern_classification 3 50).2.2.1 (by norm_num) rfl

/-- Python's built-in `round` on a real argument: round half to even. -/
noncomputable def pyRound (x : ℝ) : ℤ :=
  if Int.fract x = 1 / 2 then 2 * round (x / 2) else round x

/-- Python's `round(x, k)` for `k ≥ 0` digits. -/
noncomputable def pyRoundTo (k : ℕ) (x : ℝ) : ℝ :=
  (pyRound (x * 10 ^ k) : ℝ) / 10 ^ k

/-- Outcome of the Earth-Engine calls made by `find_nearest_water`:
whether any call raises, whether the vectorized water collection is
empty, and the nearest feature's distance and coordinates otherwise. -/
structure WaterEnv where
  raises : Bool
  noWater : Bool
  nearestDist : ℝ
  nearestLat : ℝ
  nearestLon : ℝ

/-- `find_nearest_water(lat, lon)` (app.py lines 32-63): the whole body is
wrapped in `try`, so any raising call yields `(350, "Bölgesel Tahliye
Hattı", lat - 0.003, lon)`; an empty water collection yields
`(500, "Belediye Şehir Hattı", lat - 0.004, lon)`; otherwise the nearest
feature's distance rounded to 1 decimal, the natural-water label and the
feature's coordinates are returned. -/
noncomputable def find_nearest_water (lat lon : ℝ) (env : WaterEnv) :
    ℝ × String × ℝ × ℝ :=
  if env.raises then (350, "Bölgesel Tahliye Hattı", lat - 0.003, lon)
  else if env.noWater then (500, "Belediye Şehir Hattı", lat - 0.004, lon)
  else (pyRoundTo 1 env.nearestDist, "Doğal Su Kütlesi (Dere/Deniz)",
    env.nearestLat, env.nearestLon)

/-- C5: the water-outlet locator is total and returns by exactly one of
three paths: exception fallback (350, regional line, 0.003° south),
no-water fallback (500, municipal line, 0.004° south), or the nearest
feature's rounded distance with the natural-water label and coordinates. -/
theorem C5_water_locator_three_paths (lat lon : ℝ) (env : WaterEnv) :
    (env.raises = true →
      find_nearest_water lat lon env =
        (350, "Bölgesel Tahliye Hattı", lat - 0.003, lon)) ∧
    (env.raises = false → env.noWater = true →
      find_nearest_water lat lon env =
        (500, "Belediye Şehir Hattı", lat - 0.004, lon)) ∧
    (env.raises = false → env.noWater = false →
      find_nearest_water lat lon env =
        (pyRoundTo 1 env.nearestDist, "Doğal Su Kütlesi (Dere/Deniz)",
          env.nearestLat, env.nearestLon)) := by
  obtain ⟨r, w, d, la, lo⟩ := env
  cases r <;> cases w <;> simp [find_nearest_water]

/-- Witness for C5: the exception fallback at a concrete environment. -/
theorem C5_water_locator_three_paths_witness :
    find_nearest_water 41 29 ⟨true, true, 1, 2, 3⟩ =
      (350, "Bölgesel Tahliye Hattı", 41 - 0.003, 29) :=
  (C5_water_locator_three_paths 41 29 ⟨true, true, 1, 2, 3⟩).1 rfl

/-- `get_rain_series(lat, lon)` (app.py lines 66-73): the provider's
response when the fetch succeeds (`some series`, possibly empty), or the
fallback `[50.0] * 10` when it raises. -/
noncomputable def get_rain_series (resp : Option (List ℝ)) : List ℝ :=
  match resp with
  | some series => series
  | none => List.replicate 10 50.0

/-- Mean rainfall, from `mean_rain = sum(rain_data) / 10 if rain_data
else 600` (app.py line 103): the divisor is the constant 10, and an empty
series short-circuits to the constant 600. -/
noncomputable def mean_rain (rain_data : List ℝ) : ℝ :=
  if rain_data = [] then 600 else rain_data.sum / 10

/-- Rain-harvest estimate, from
`round(area_ha * mean_rain * 0.7, 0)` (app.py line 154). -/
noncomputable def harvest_m3 (area mean : ℝ) : ℝ :=
  pyRoundTo 0 (area * mean * 0.7)

/-- C6 counterexample: the provider can return an empty series (the JSON
path defaults to `[]`), and there the code uses 600, not
`sum(series) / 10 = 0`. -/
theorem C6_mean_rain_counterexample :
    get_rain_series (some []) = [] ∧
    mean_rain [] = 600 ∧
    ([] : List ℝ).sum / 10 = 0 ∧ (600 : ℝ) ≠ 0 := by
  refine ⟨rfl, ?_, by simp, by norm_num⟩
  simp [mean_rain]

/-- C6 amended: for every nonempty series the mean used downstream is
`sum(series) / 10`, the divisor fixed at 10 whatever the length. -/
theorem C6_mean_rain_fixed_divisor (s : List ℝ) (hs : s ≠ []) :
    mean_rain s = s.sum / 10 := by
  simp [mean_rain, hs]

/-- Witness for amended C6 on the one-element series `[50]`. -/
theorem C6_mean_rain_fixed_divisor_witness :
    mean_rain [50] = List.sum [50] / 10 :=
  C6_mean_rain_fixed_divisor [50] (by simp)

/-- C10: on an empty rainfall series the pipeline uses the constant 600
for the mean, so the harvest estimate is `round(area_ha · 600 · 0.7)`. -/
theorem C10_empty_series_mean_600 (radius : ℝ) :
    mean_rain [] = 600 ∧
    harvest_m3 (area_ha radius) (mean_rain []) =
      pyRoundTo 0 (area_ha radius * 600 * 0.7) := by
  constructor
  · simp [mean_rain]
  · simp [harvest_m3, mean_rain]

/-- Result of the terrain/land-cover `reduceRegion(...).getInfo()` call
when it returns: the dict may lack either key, which `stats.get` covers
with the defaults 2.0 and 50 (app.py lines 97, 99). -/
structure TerrainStats where
  slope_mean : Option ℝ
  land_mode : Option ℤ

/-- Outcomes of all external calls made inside `analyze`:
the water-locator environment, the terrain lookup (`none` when the
Earth-Engine call raises) and the rainfall response (`none` when the
HTTP fetch raises). -/
structure AnalyzeEnv where
  water : WaterEnv
  terrain : Option TerrainStats
  rainResp : Option (List ℝ)

/-- The success-path fields of the `/analyze` JSON response
(app.py lines 137-155), with the roundings of the source. -/
structure AnalyzeResult where
  system : String
  q_flow : ℝ
  diameter_mm : ℝ
  slope_pct : ℝ
  distance_m : ℝ
  target : String
  target_lat : ℝ
  target_lon : ℝ
  total_pipe_m : ℝ
  harvest : ℝ

/-- The success path of `analyze` (app.py lines 77-155), reached when the
terrain lookup returns a stats dict: missing keys fall back to
`slope_deg = 2.0` and `land_cls = 50` via `stats.get`, and the hydraulic
chain runs on the embedded formulas above. -/
noncomputable def analyze_core (lat lon radius : ℝ) (stats : TerrainStats)
    (wenv : WaterEnv) (rainResp : Option (List ℝ)) : AnalyzeResult :=
  let fw := find_nearest_water lat lon wenv
  let dist_to_water := fw.1
  let slope_deg := stats.slope_mean.getD 2.0
  let p := slope_pct slope_deg
  let land_cls := stats.land_mode.getD 50
  let mr := mean_rain (get_rain_series rainResp)
  let Q := Q_flow land_cls radius
  { system := selected_system p land_cls
    q_flow := pyRoundTo 3 Q
    diameter_mm := pyRoundTo 0 (D_final radius dist_to_water Q p)
    slope_pct := pyRoundTo 2 p
    distance_m := dist_to_water
    target := fw.2.1
    target_lat := fw.2.2.1
    target_lon := fw.2.2.2
    total_pipe_m := pyRoundTo 1 (radius + dist_to_water)
    harvest := harvest_m3 (area_ha radius) mr }

/-- The `/analyze` endpoint with its top-level `try/except`
(app.py lines 77-158): of the external calls, only the terrain lookup can
raise out of its component (`find_nearest_water` and `get_rain_series`
catch their own exceptions), and when it does the handler returns the
error envelope instead of a result. -/
noncomputable def analyze (lat lon radius : ℝ) (env : AnalyzeEnv) :
    Except String AnalyzeResult :=
  match env.terrain with
  | none => Except.error "terrain lookup raised"
  | some stats => Except.ok (analyze_core lat lon radius stats env.water env.rainResp)

/-- C7 counterexample: a terrain lookup that raises is not replaced by the
sentinel values; the request fails with the error envelope, so the
downstream computation is blocked at that input. -/
theorem C7_terrain_failure_counterexample :
    analyze 41 29 250 ⟨⟨false, false, 100, 41, 29⟩, none, some []⟩ =
      Except.error "terrain lookup raised" := rfl

/-- C7 amended: when the terrain lookup returns but carries neither a
slope nor a land-cover value, the pipeline substitutes `slope_deg = 2.0`
and `land_cls = 50` and the request succeeds; a lookup that raises is
caught by the top-level handler and yields the error envelope instead. -/
theorem C7_sentinel_defaults (lat lon radius : ℝ) (wenv : WaterEnv)
    (resp : Option (List ℝ)) :
    analyze lat lon radius ⟨wenv, some ⟨none, none⟩, resp⟩ =
      Except.ok (analyze_core lat lon radius ⟨none, none⟩ wenv resp) ∧
    (analyze_core lat lon radius ⟨none, none⟩ wenv resp).system =
      selected_system (slope_pct 2.0) 50 ∧
    (analyze_core lat lon radius ⟨none, none⟩ wenv resp).slope_pct =
      pyRoundTo 2 (slope_pct 2.0) ∧
    (analyze_core lat lon radius ⟨none, none⟩ wenv resp).q_flow =
      pyRoundTo 3 (Q_flow 50 radius) ∧
    analyze lat lon radius ⟨wenv, none, resp⟩ =
      Except.error "terrain lookup raised" :=
  ⟨rfl, rfl, rfl, rfl, rfl⟩

lemma pi_div_90_bounds : 0 < 2 * π / 180 ∧ 2 * π / 180 < 0.035 := by
  have h1 := Real.pi_gt_three
  have h2 := Real.pi_lt_d2
  constructor <;> nlinarith

lemma tan_two_deg_gt : 0.005 < Real.tan (2 * π / 180) := by
  obtain ⟨hx0, hx1⟩ := pi_div_90_bounds
  have hx2 : 2 * π / 180 < π / 2 := by nlinarith [Real.pi_gt_three]
  have htan := Real.lt_tan hx0 hx2
  have h3 := Real.pi_gt_three
  nlinarith

lemma tan_two_deg_lt : Real.tan (2 * π / 180) < 0.12 := by
  obtain ⟨hx0, hx1⟩ := pi_div_90_bounds
  have hxpi : 2 * π / 180 ≤ π := by nlinarith [Real.pi_gt_three]
  have hcos : Real.cos (π / 3) ≤ Real.cos (2 * π / 180) := by
    refine Real.cos_le_cos_of_nonneg_of_le_pi hx0.le ?_ ?_
    · nlinarith [Real.pi_gt_three]
    · nlinarith [Real.pi_gt_three]
  rw [Real.cos_pi_div_three] at hcos
  have hcos0 : (0 : ℝ) < Real.cos (2 * π / 180) := by linarith
  have hsin : Real.sin (2 * π / 180) < 2 * π / 180 := Real.sin_lt hx0
  rw [Real.tan_eq_sin_div_cos, div_lt_iff₀ hcos0]
  nlinarith

/-- C9 counterexample: in the scenario `slope_deg = 2.0` the hydraulic
slope is not `0.005`: since `tan 2° > 0.005`, the floor is inactive and
`S_metric` equals `tan 2° ≈ 0.0349`. -/
theorem C9_scenario_counterexample :
    S_metric (slope_pct 2) = Real.tan (2 * π / 180) ∧
    0.005 < Real.tan (2 * π / 180) ∧
    S_metric (slope_pct 2) ≠ 0.005 := by
  have htan := tan_two_deg_gt
  have hS : S_metric (slope_pct 2) = Real.tan (2 * π / 180) := by
    unfold S_metric slope_pct
    rw [show Real.tan (2 * π / 180) * 100 / 100 = Real.tan (2 * π / 180) by ring]
    exact max_eq_right htan.le
  refine ⟨hS, htan, ?_⟩
  rw [hS]
  exact ne_of_gt htan

/-- C9 amended: for the scenario radius = 250, land_cls = 50,
slope_deg = 2.0 the engine computes `C = 0.85`,
`area_ha = π · 250² / 10000`, `S = max(0.005, tan 2°) = tan 2° ≈ 0.0349`
(not 0.005), `Q ≈ 3.0134 m³/s`, and the pattern "reticular". -/
theorem C9_scenario_amended :
    runoff_C 50 = 0.85 ∧
    area_ha 250 = π * 250 ^ 2 / 10000 ∧
    S_metric (slope_pct 2) = Real.tan (2 * π / 180) ∧
    |Q_flow 50 250 - 3.0134| < 0.001 ∧
    selected_system (slope_pct 2) 50 = "reticular" := by
  have hC : runoff_C 50 = 0.85 := by simp [runoff_C]
  have hS : S_metric (slope_pct 2) = Real.tan (2 * π / 180) := by
    unfold S_metric slope_pct
    rw [show Real.tan (2 * π / 180) * 100 / 100 = Real.tan (2 * π / 180) by ring]
    exact max_eq_right tan_two_deg_gt.le
  have hQ : Q_flow 50 250 = (0.85 * 65 * (π * 250 ^ 2 / 10000)) / 360 := by
    unfold Q_flow i_intensity area_ha
    rw [hC]
  have hQbound : |Q_flow 50 250 - 3.0134| < 0.001 := by
    rw [hQ, abs_lt]
    constructor <;> nlinarith [Real.pi_gt_d6, Real.pi_lt_d6]
  have hp : slope_pct 2 < 12 := by
    unfold slope_pct
    nlinarith [tan_two_deg_lt]
  have hpattern : selected_system (slope_pct 2) 50 = "reticular" := by
    unfold selected_system
    rw [if_neg (by linarith), if_pos rfl]
  exact ⟨hC, rfl, hS, hQbound, hpattern⟩

end Drenaj
